import Mathlib

/-!
Verification development for `arcgis_corporate.py` (ferramentas_survey123).

The file shallowly embeds the four classes of the script:
`ConnectGIS` (authentication, not modelled beyond an opaque step),
`GetData` (`get_main_layer` / `get_table`), `UploadToPortal`
(`upload_to_portal`) and `GetPhotos` (`get_photos`).

Python machine-level details are modelled as follows: Python lists become
`List`, Python list indexing (with negative-index wraparound and
`IndexError` on out-of-range) becomes `pyIndex`, `str.replace` becomes
`pyReplace` (replace every non-overlapping occurrence, left to right),
`os.path.join` becomes `joinPath`, the filesystem becomes an association
list from path to file content, pandas DataFrames become `DataFrame`
(a header and rows of cells), and timestamps are naturals (milliseconds
since the Unix epoch), converted to civil dates with the standard
era-based algorithm that CPython's `datetime.utcfromtimestamp` agrees
with on its domain.

The vendor SDK (`arcgis`) is not part of the repository; the calls the
script makes into it are modelled at their interface: a feature-layer
query with a where clause `objectid > m` and ascending ordering returns
exactly the features with objectid greater than `m` sorted by objectid;
an attachment download writes the attachment under its filename in the
requested folder and returns that path; a portal content search returns
an unspecified list of items, which the embedding takes as an input.
-/

/-- Decimal digit character for `n` (callers pass values below 10;
larger values fall to the final branch like a modulus would not, so all
call sites take `% 10` first). -/
def digitChar (n : Nat) : Char :=
  if n = 0 then '0' else if n = 1 then '1' else if n = 2 then '2'
  else if n = 3 then '3' else if n = 4 then '4' else if n = 5 then '5'
  else if n = 6 then '6' else if n = 7 then '7' else if n = 8 then '8' else '9'

/-- Fuel-driven most-significant-first decimal digits of `n`; with
`fuel ≥ n` (as used by `natToString`) it lists the digits of `n`. -/
def natDigitsAux : Nat → Nat → List Char
  | 0, _ => []
  | _ + 1, 0 => []
  | fuel + 1, n => natDigitsAux fuel (n / 10) ++ [digitChar (n % 10)]

/-- Decimal rendering of a natural number, as Python `str` produces. -/
def natToString (n : Nat) : String :=
  if n = 0 then "0" else String.mk (natDigitsAux n n)

/-- Decimal rendering of an integer, as Python `str` produces. -/
def intToString (i : Int) : String :=
  if i < 0 then "-" ++ natToString i.natAbs else natToString i.toNat

/-- Whether a string starts with `/` (checked on the character list so
that concrete instances reduce in the kernel). -/
def startsWithSlash (s : String) : Bool :=
  match s.data with
  | '/' :: _ => true
  | _ => false

/-- Whether a string ends with `/`. -/
def endsWithSlash (s : String) : Bool :=
  match s.data.getLast? with
  | some '/' => true
  | _ => false

/-- Model of `os.path.join a b`: `b` absolute wins; a trailing separator on `a`
is not doubled; otherwise the parts are joined with `/`. -/
def joinPath (a b : String) : String :=
  if startsWithSlash b then b
  else if a.data.isEmpty then b
  else if endsWithSlash a then a ++ b
  else a ++ "/" ++ b

/-- Error taxonomy of the spec: `NotFoundError` is the spec-level name
for the `IndexError` a Python out-of-range list index raises (and for
the same failure on an empty portal search result). -/
inductive GISError where
  | NotFoundError
  | AuthenticationError
deriving DecidableEq, Repr

/-- Python list indexing `l[i]`: negative indices count from the end;
an index out of range raises (here: returns) the not-found error. -/
def pyIndex {α : Type} (l : List α) (i : Int) : Except GISError α :=
  let j : Int := if i < 0 then i + l.length else i
  if h : 0 ≤ j ∧ j.toNat < l.length then .ok (l.get ⟨j.toNat, h.2⟩)
  else .error .NotFoundError

/-- A cell of a pandas DataFrame: either text or a decimal number kept
as integer part plus fractional digits, so that the decimal-separator
choice of `to_csv` is observable. -/
inductive Cell where
  | str (s : String)
  | dec (ipart : Int) (fpart : String)
deriving DecidableEq, Repr

/-- Rendering of one cell, parameterised by the decimal separator
(pandas `to_csv`'s `decimal` argument; only numeric cells use it). -/
def renderCell (decimal : Char) : Cell → String
  | .str s => s
  | .dec i f => intToString i ++ String.singleton decimal ++ f

/-- A pandas DataFrame: column names and rows of cells. -/
structure DataFrame where
  columns : List String
  rows : List (List Cell)
deriving DecidableEq, Repr

/-- Pairs each element with its position, starting at `i`. -/
def enumFrom {α : Type} (i : Nat) : List α → List (Nat × α)
  | [] => []
  | a :: as => (i, a) :: enumFrom (i + 1) as

/-- One line of delimited output: fields joined by the separator. -/
def csvLine (sep : Char) (fields : List String) : String :=
  String.intercalate (String.singleton sep) fields

/-- pandas `DataFrame.to_csv(index, decimal, sep)`: header line then one
line per row; when `index` is true a row-number column is prepended
(with an empty header cell), when false no index column is written. -/
def to_csv (df : DataFrame) (index : Bool) (decimal : Char) (sep : Char) : String :=
  let header := csvLine sep (if index then "" :: df.columns else df.columns)
  let body := (enumFrom 0 df.rows).map (fun p =>
    csvLine sep ((if index then [natToString p.1] else []) ++ p.2.map (renderCell decimal)))
  String.intercalate "\n" (header :: body) ++ "\n"

/-- The content item `gis.content.get(id_form)` resolves to: its layer
collection and its related-table collection, each already queried as a
full-projection DataFrame (the script's `query(as_df=True)`). -/
structure SurveyItem where
  layers : List DataFrame
  tables : List DataFrame

/-- State of a constructed `GetData` object (source field `prefix` is
named `prefix_str` here because `prefix` is a reserved word). -/
structure GetDataModel where
  id_form : String
  prefix_str : Option String
  save_directory : String
  survey_by_id : SurveyItem

/-- Embedding of `GetData.get_main_layer(layer_position, save, file_name)`: index the
layer collection, query it, and when `save` is true write the CSV to
`{save_directory}/{prefix}{file_name}.csv`. The result pairs the
returned DataFrame with the list of (path, content) file writes
performed. -/
def get_main_layer (g : GetDataModel) (layer_position : Int) (save : Bool)
    (file_name : String) : Except GISError (DataFrame × List (String × String)) :=
  match pyIndex g.survey_by_id.layers layer_position with
  | .error e => .error e
  | .ok main_layer =>
    if save then
      match g.prefix_str with
      | none =>
        let file := joinPath g.save_directory (file_name ++ ".csv")
        .ok (main_layer, [(file, to_csv main_layer false ',' ';')])
      | some p =>
        let file := joinPath g.save_directory (p ++ file_name ++ ".csv")
        .ok (main_layer, [(file, to_csv main_layer false ',' ';')])
    else .ok (main_layer, [])

/-- Embedding of `GetData.get_table(table_position, save, file_name)`: same contract
as `get_main_layer`, addressing the related-table collection. -/
def get_table (g : GetDataModel) (table_position : Int) (save : Bool)
    (file_name : String) : Except GISError (DataFrame × List (String × String)) :=
  match pyIndex g.survey_by_id.tables table_position with
  | .error e => .error e
  | .ok rel_table =>
    if save then
      match g.prefix_str with
      | none =>
        let file := joinPath g.save_directory (file_name ++ ".csv")
        .ok (rel_table, [(file, to_csv rel_table false ',' ';')])
      | some p =>
        let file := joinPath g.save_directory (p ++ file_name ++ ".csv")
        .ok (rel_table, [(file, to_csv rel_table false ',' ';')])
    else .ok (rel_table, [])

/-- The expected output path of a saved layer/table, for statements. -/
def savePath (g : GetDataModel) (file_name : String) : String :=
  match g.prefix_str with
  | none => joinPath g.save_directory (file_name ++ ".csv")
  | some p => joinPath g.save_directory (p ++ file_name ++ ".csv")

/-- A portal content item as `upload_to_portal` needs it: whether its
`update(data=...)` call reports success. -/
structure PortalItem where
  item_id : Nat
  updateOk : Bool
deriving DecidableEq, Repr

/-- The console message `upload_to_portal` prints. -/
def uploadMessage (item : PortalItem) (file_name : String) : String :=
  if item.updateOk then "\nFile " ++ file_name ++ " successfully updated to Portal"
  else "\nERROR: File " ++ file_name ++ " not saved on Portal"

/-- Embedding of `UploadToPortal.upload_to_portal(file_name, file_format)`: index the
portal search results at 0 (raising not-found on an empty result), then
update the found item with `{upload_directory}/{file_name}.csv`.
The search itself is vendor SDK behaviour, so its result list is an
input. Returns the chosen item, the local file path and the printed
message. -/
def upload_to_portal (upload_directory file_name file_format : String)
    (search_results : List PortalItem) : Except GISError (PortalItem × String × String) :=
  match pyIndex search_results 0 with
  | .error e => .error e
  | .ok data_portal =>
    let file := joinPath upload_directory (file_name ++ ".csv")
    .ok (data_portal, file, uploadMessage data_portal file_name)

/-! ### Date formatting (`datetime.utcfromtimestamp` / `strftime`) -/

/-- Civil date `(year, month, day)` of a day count since 1970-01-01,
by the standard era decomposition (valid for any day count; CPython's
`utcfromtimestamp` agrees on its supported range). -/
def daysToCivil (days : Nat) : Nat × Nat × Nat :=
  let z := days + 719468
  let era := z / 146097
  let doe := z % 146097
  let yoe := (doe - doe / 1460 + doe / 36524 - doe / 146096) / 365
  let doy := doe - (365 * yoe + yoe / 4 - yoe / 100)
  let mp := (5 * doy + 2) / 153
  let d := doy - (153 * mp + 2) / 5 + 1
  let m := if mp < 10 then mp + 3 else mp - 9
  let y := yoe + era * 400 + (if m ≤ 2 then 1 else 0)
  (y, m, d)

/-- Zero padding in `%02d` style as a two-character list (faithful to
`strftime` whenever the value is below 100; day, month, hour, minute
and second always are). -/
def pad2L (n : Nat) : List Char :=
  [digitChar (n / 10 % 10), digitChar (n % 10)]

/-- Four-character year in `%Y` style (faithful to `strftime` whenever the
year is below 10000). -/
def pad4L (n : Nat) : List Char :=
  [digitChar (n / 1000 % 10), digitChar (n / 100 % 10), digitChar (n / 10 % 10), digitChar (n % 10)]

/-- Rendering `strftime('%d/%m/%Y %H:%M:%S')` on the given civil components. -/
def fmtDMYHMS (y mo d hh mi ss : Nat) : String :=
  String.mk (pad2L d ++ '/' :: pad2L mo ++ '/' :: pad4L y ++ ' ' :: pad2L hh ++ ':' :: pad2L mi ++ ':' :: pad2L ss)

/-- Rendering `strftime('%y-%m-%d')` on the given civil components (two-digit
year), used for the per-day destination folder. -/
def fmtYMD2 (y mo d : Nat) : String :=
  String.mk (pad2L (y % 100) ++ '-' :: pad2L mo ++ '-' :: pad2L d)

/-- The script's log-date format: a millisecond timestamp converted with
`pd.to_datetime(..., unit='ms')` then `strftime('%d/%m/%Y %H:%M:%S')`. -/
def formatLogDate (ms : Nat) : String :=
  let secs := ms / 1000
  let c := daysToCivil (secs / 86400)
  let rem := secs % 86400
  fmtDMYHMS c.1 c.2.1 c.2.2 (rem / 3600) (rem % 3600 / 60) (rem % 60)

/-- The script's folder-date: `datetime.utcfromtimestamp(ms/1000)`
rendered `%y-%m-%d`. -/
def folderDate (ms : Nat) : String :=
  let secs := ms / 1000
  let c := daysToCivil (secs / 86400)
  fmtYMD2 c.1 c.2.1 c.2.2

/-! ### Python `str.replace` -/

/-- Fuel-driven replace-all: replaces every non-overlapping occurrence
of `pat` in the input, scanning left to right, exactly as Python
`str.replace` does for a nonempty pattern. With `fuel` at least the
input length (as `pyReplace` passes) the fuel never runs out. -/
def pyReplaceAux (pat rep : List Char) : Nat → List Char → List Char
  | _, [] => []
  | 0, l => l
  | fuel + 1, c :: cs =>
    if pat.isPrefixOf (c :: cs) then
      rep ++ pyReplaceAux pat rep fuel (cs.drop (pat.length - 1))
    else
      c :: pyReplaceAux pat rep fuel cs

/-- Python `s.replace(pat, rep)` for a nonempty pattern. -/
def pyReplace (s pat rep : String) : String :=
  String.mk (pyReplaceAux pat.data rep.data s.data.length s.data)

/-- The renamed-file target the script computes for a downloaded
attachment path: `path.replace('.jpg', '-oid_{oid}.jpg')`. -/
def finalFilename (path : String) (oid : Nat) : String :=
  pyReplace path ".jpg" ("-oid_" ++ natToString oid ++ ".jpg")

/-! ### GetPhotos data model -/

/-- One record of the sync log file `log_photos.json`, as persisted:
`created_date` is the formatted string. (Source JSON key `local` is a
reserved word in Lean, hence `local_dir`.) -/
structure LogEntry where
  objectid : Nat
  created_date : String
  id_form : String
  local_dir : String
deriving DecidableEq, Repr

/-- One pending row of `new_objects_control`, before date formatting:
`created_date` is still the raw millisecond timestamp. -/
structure RawEntry where
  objectid : Nat
  created_date : Nat
  id_form : String
  local_dir : String
deriving DecidableEq, Repr

/-- An attachment of a record: its id, its stored filename (which the
SDK download reproduces inside the chosen folder) and its content. -/
structure Attachment where
  att_id : Nat
  filename : String
  content : Nat
deriving DecidableEq, Repr

/-- A queried feature: the two attributes the script projects. -/
structure Feature where
  objectid : Nat
  created_date : Nat
deriving DecidableEq, Repr

/-- One element of `survey_by_id.layers + survey_by_id.tables`: the
`hasAttachments` property, the remote records, and the attachment list
`attachments.get_list(oid)` per objectid. -/
structure FeatureLayerP where
  hasAttachments : Bool
  features : List Feature
  attachmentsOf : Nat → List Attachment

/-- The query parameters `fs.query(...)` is called with. -/
structure Query where
  out_fields : String
  where_clause : String
  return_geometry : Bool
  order_by_fields : String
deriving DecidableEq, Repr

/-- The query `get_photos` builds for the cursor `max_oid`
(source: `out_fields="created_date"`, `where=f'objectid > {max_oid}'`,
`return_geometry=False`, `order_by_fields='objectid ASC'`). -/
def buildQuery (max_oid : Nat) : Query :=
  { out_fields := "created_date"
    where_clause := "objectid > " ++ natToString max_oid
    return_geometry := false
    order_by_fields := "objectid ASC" }

/-- Insert a feature into a list kept in nondecreasing objectid order. -/
def insertByOid (f : Feature) : List Feature → List Feature
  | [] => [f]
  | g :: gs => if f.objectid ≤ g.objectid then f :: g :: gs else g :: insertByOid f gs

/-- Sort features by ascending objectid (insertion sort). -/
def sortByOid : List Feature → List Feature
  | [] => []
  | f :: fs => insertByOid f (sortByOid fs)

/-- Model of the vendor SDK evaluating the query `buildQuery m` against
a layer: the features whose objectid exceeds `m`, in ascending objectid
order. -/
def queryFeatures (l : FeatureLayerP) (m : Nat) : List Feature :=
  sortByOid (l.features.filter (fun f => decide (m < f.objectid)))

/-- Whether a feature list is in nondecreasing objectid order. -/
def ascOids : List Feature → Bool
  | [] => true
  | [_] => true
  | a :: b :: t => decide (a.objectid ≤ b.objectid) && ascOids (b :: t)

/-! ### Filesystem model -/

/-- Look a path up in the filesystem (association list path ↦ content). -/
def fsLookup (files : List (String × Nat)) (p : String) : Option Nat :=
  (files.find? (fun e => e.1 == p)).map (fun e => e.2)

/-- Model of `os.path.exists`. -/
def fsExists (files : List (String × Nat)) (p : String) : Bool :=
  (fsLookup files p).isSome

/-- Write content `c` at path `p` (replacing any previous file there). -/
def fsWrite (files : List (String × Nat)) (p : String) (c : Nat) : List (String × Nat) :=
  (p, c) :: files.filter (fun e => !(e.1 == p))

/-- Model of `os.rename src dst`: every entry at `src` moves to `dst`. -/
def fsRename (files : List (String × Nat)) (src dst : String) : List (String × Nat) :=
  files.map (fun e => if e.1 == src then (dst, e.2) else e)

/-- The `[EXCEPTION]` console message printed when the rename target
already exists. -/
def warnMsg (oid : Nat) (final_filename : String) : String :=
  "[EXCEPTION] File with objectid= " ++ natToString oid ++
    " was not downloaded because the file already exists File name:\"" ++ final_filename ++ "\""

/-! ### GetPhotos run -/

/-- Constructor arguments of `GetPhotos`. -/
structure GPConfig where
  id_form : String
  save_directory : String
  folder_name : String

/-- The per-record destination folder
`os.path.join(save_directory, folder_name, created_date as %y-%m-%d)`. -/
def finalFolder (cfg : GPConfig) (f : Feature) : String :=
  joinPath (joinPath cfg.save_directory cfg.folder_name) (folderDate f.created_date)

/-- The `new_objects_control` row appended for a queried feature. -/
def mkRawEntry (cfg : GPConfig) (f : Feature) : RawEntry :=
  { objectid := f.objectid
    created_date := f.created_date
    id_form := cfg.id_form
    local_dir := finalFolder cfg f }

/-- Mutable pieces the attachment loop touches. -/
structure AttState where
  files : List (String × Nat)
  downloads : List String
  warnings : List String

/-- One iteration of the attachment loop: download the attachment into
the destination folder, compute the renamed target, and either rename
(target absent) or keep everything and print the warning (target
present). -/
def processAttachment (oid : Nat) (final_folder : String) (st : AttState)
    (att : Attachment) : AttState :=
  let path := joinPath final_folder att.filename
  let files1 := fsWrite st.files path att.content
  let fin := finalFilename path oid
  if fsExists files1 fin then
    { files := files1, downloads := st.downloads ++ [path],
      warnings := st.warnings ++ [warnMsg oid fin] }
  else
    { files := fsRename files1 path fin, downloads := st.downloads ++ [path],
      warnings := st.warnings }

/-- Accumulated state of a `get_photos` run while looping. -/
structure RunState where
  queries : List Query
  newEntries : List RawEntry
  files : List (String × Nat)
  downloads : List String
  warnings : List String

/-- One iteration of the feature loop: create the destination folder,
append the pending log row, then process every attachment of the
record (the row is appended whether or not the record has any
attachment). -/
def processFeature (cfg : GPConfig) (l : FeatureLayerP) (st : RunState)
    (f : Feature) : RunState :=
  let a0 : AttState := ⟨st.files, st.downloads, st.warnings⟩
  let a1 := (l.attachmentsOf f.objectid).foldl
    (processAttachment f.objectid (finalFolder cfg f)) a0
  { queries := st.queries
    newEntries := st.newEntries ++ [mkRawEntry cfg f]
    files := a1.files
    downloads := a1.downloads
    warnings := a1.warnings }

/-- One iteration of the layer loop: layers without attachments are
skipped; otherwise the incremental query is issued and each returned
feature processed in order. -/
def processLayer (cfg : GPConfig) (max_oid : Nat) (st : RunState)
    (l : FeatureLayerP) : RunState :=
  if l.hasAttachments then
    let st1 : RunState :=
      { st with queries := st.queries ++ [buildQuery max_oid] }
    (queryFeatures l max_oid).foldl (processFeature cfg l) st1
  else st

/-- Maximum of a list of naturals (0 on the empty list). -/
def listMax (l : List Nat) : Nat := l.foldr max 0

/-- The incremental cursor: `df_log_previous['objectid'].max()` when the
log file exists, `0` otherwise. -/
def logCursor : Option (List LogEntry) → Nat
  | some prev => listMax (prev.map (fun e => e.objectid))
  | none => 0

/-- Turn a pending row into a persisted entry: format the millisecond
timestamp as `%d/%m/%Y %H:%M:%S`. -/
def formatEntry (r : RawEntry) : LogEntry :=
  { objectid := r.objectid
    created_date := formatLogDate r.created_date
    id_form := r.id_form
    local_dir := r.local_dir }

/-- Left and right brace characters for building JSON text. -/
def lbrace : String := "\x7b"

/-- Closing brace. -/
def rbrace : String := "\x7d"

/-- A JSON string literal (escaping not modelled). -/
def jstr (s : String) : String := "\"" ++ s ++ "\""

/-- A JSON object from rendered fields. -/
def jsonObj (fields : List (String × String)) : String :=
  lbrace ++ String.intercalate "," (fields.map (fun f => jstr f.1 ++ ":" ++ f.2)) ++ rbrace

/-- One column of `DataFrame.to_json` (default `orient='columns'`):
an object keyed by the stringified row index. -/
def colObj (vals : List String) : String :=
  jsonObj ((enumFrom 0 vals).map (fun p => (natToString p.1, p.2)))

/-- Model of `df_log_new.to_json(log_file)`: a columns-oriented object with the
four log columns. -/
def serializeLog (entries : List LogEntry) : String :=
  jsonObj [("objectid", colObj (entries.map (fun e => natToString e.objectid))),
           ("created_date", colObj (entries.map (fun e => jstr e.created_date))),
           ("id_form", colObj (entries.map (fun e => jstr e.id_form))),
           ("local", colObj (entries.map (fun e => jstr e.local_dir)))]

/-- Everything observable about one `get_photos` run. -/
structure RunResult where
  queries : List Query
  newEntries : List RawEntry
  finalLog : List LogEntry
  files : List (String × Nat)
  downloads : List String
  warnings : List String
  writes : List (String × String)

/-- Embedding of `GetPhotos.get_photos()`. Inputs: the constructor state, the log
file content (`none` when `log_photos.json` does not exist), the
combined `layers + tables` collection of the form, and the initial
filesystem. The run reads the cursor, loops over the collection, then
formats the new rows, concatenates them after the previous entries when
a previous log was loaded, and rewrites the whole log file in a single
write. -/
def get_photos (cfg : GPConfig) (logInput : Option (List LogEntry))
    (rel_fs : List FeatureLayerP) (files0 : List (String × Nat)) : RunResult :=
  let max_oid := logCursor logInput
  let st0 : RunState := ⟨[], [], files0, [], []⟩
  let st := rel_fs.foldl (processLayer cfg max_oid) st0
  let newFmt := st.newEntries.map formatEntry
  let finalLog := (match logInput with | some prev => prev | none => []) ++ newFmt
  { queries := st.queries
    newEntries := st.newEntries
    finalLog := finalLog
    files := st.files
    downloads := st.downloads
    warnings := st.warnings
    writes := [(joinPath cfg.save_directory "log_photos.json", serializeLog finalLog)] }

/-! ### Helper functions for stating run-level properties -/

/-- Concatenating map (kept as an explicit recursion so concrete
instances reduce and the induction lemmas are definitional). -/
def listFlatMap {α β : Type} (f : α → List β) : List α → List β
  | [] => []
  | a :: as => f a ++ listFlatMap f as

/-- The queries one layer contributes to a run with cursor `m`. -/
def layerQueries (m : Nat) (l : FeatureLayerP) : List Query :=
  if l.hasAttachments then [buildQuery m] else []

/-- The log rows one layer contributes to a run with cursor `m`. -/
def layerEntries (cfg : GPConfig) (m : Nat) (l : FeatureLayerP) : List RawEntry :=
  if l.hasAttachments then (queryFeatures l m).map (mkRawEntry cfg) else []

/-- The download paths one feature of layer `l` contributes. -/
def featureDownloads (cfg : GPConfig) (l : FeatureLayerP) (f : Feature) : List String :=
  (l.attachmentsOf f.objectid).map (fun a => joinPath (finalFolder cfg f) a.filename)

/-- The download paths one layer contributes to a run with cursor `m`. -/
def layerDownloads (cfg : GPConfig) (m : Nat) (l : FeatureLayerP) : List String :=
  if l.hasAttachments then listFlatMap (featureDownloads cfg l) (queryFeatures l m) else []

/-- Boolean prefix test on persisted log entries. -/
def isPrefixL : List LogEntry → List LogEntry → Bool
  | [], _ => true
  | _ :: _, [] => false
  | a :: as, b :: bs => decide (a = b) && isPrefixL as bs

/-- Decimal digit test (on the ten digit characters). -/
def isDigitB (c : Char) : Bool :=
  c == '0' || c == '1' || c == '2' || c == '3' || c == '4' ||
  c == '5' || c == '6' || c == '7' || c == '8' || c == '9'

/-- Shape check for `DD/MM/YYYY HH:MM:SS`: nineteen characters, digits
and the separators `/`, `/`, space, `:`, `:` in the right places. -/
def isDateFormat (s : String) : Bool :=
  match s.data with
  | [d1, d2, a, m1, m2, b, y1, y2, y3, y4, c, h1, h2, e, n1, n2, f, s1, s2] =>
    isDigitB d1 && isDigitB d2 && (a == '/') && isDigitB m1 && isDigitB m2 && (b == '/') &&
    isDigitB y1 && isDigitB y2 && isDigitB y3 && isDigitB y4 && (c == ' ') &&
    isDigitB h1 && isDigitB h2 && (e == ':') && isDigitB n1 && isDigitB n2 && (f == ':') &&
    isDigitB s1 && isDigitB s2
  | _ => false

/-! ### Infrastructure lemmas -/

theorem mem_listFlatMap {α β : Type} (f : α → List β) (l : List α) (b : β) :
    b ∈ listFlatMap f l ↔ ∃ a ∈ l, b ∈ f a := by
  induction l with
  | nil => simp [listFlatMap]
  | cons a as ih => simp [listFlatMap, ih]

theorem mem_insertByOid (f g : Feature) (l : List Feature) :
    g ∈ insertByOid f l ↔ g = f ∨ g ∈ l := by
  induction l with
  | nil => simp [insertByOid]
  | cons h t ih =>
    simp only [insertByOid]
    split
    · simp [or_comm, or_assoc, or_left_comm]
    · simp [ih]
      tauto

theorem mem_sortByOid (g : Feature) (l : List Feature) :
    g ∈ sortByOid l ↔ g ∈ l := by
  induction l with
  | nil => simp [sortByOid]
  | cons f fs ih => simp [sortByOid, mem_insertByOid, ih]

theorem ascOids_insertByOid (f : Feature) (l : List Feature)
    (h : ascOids l = true) : ascOids (insertByOid f l) = true := by
  induction l with
  | nil => rfl
  | cons g gs ih =>
    by_cases hfg : f.objectid ≤ g.objectid
    · simp only [insertByOid, if_pos hfg]
      simp [ascOids, hfg, h]
    · cases gs with
      | nil => simp [insertByOid, hfg, ascOids]; omega
      | cons p t =>
        have h1 : g.objectid ≤ p.objectid ∧ ascOids (p :: t) = true := by
          simpa [ascOids] using h
        have htail := ih h1.2
        by_cases hfp : f.objectid ≤ p.objectid
        · simp [insertByOid, hfg, hfp, ascOids, h1.2]
          omega
        · rw [show insertByOid f (g :: p :: t) = g :: p :: insertByOid f t by
            simp [insertByOid, hfg, hfp]]
          rw [show insertByOid f (p :: t) = p :: insertByOid f t by
            simp [insertByOid, hfp]] at htail
          simp [ascOids, h1.1, htail]

theorem ascOids_sortByOid (l : List Feature) : ascOids (sortByOid l) = true := by
  induction l with
  | nil => rfl
  | cons f fs ih => exact ascOids_insertByOid f _ ih

theorem queryFeatures_mem (l : FeatureLayerP) (m : Nat) (f : Feature) :
    f ∈ queryFeatures l m ↔ f ∈ l.features ∧ m < f.objectid := by
  simp [queryFeatures, mem_sortByOid, List.mem_filter]

theorem isPrefixL_append (p q : List LogEntry) : isPrefixL p (p ++ q) = true := by
  induction p with
  | nil => rfl
  | cons a as ih => simp [isPrefixL, ih]

theorem listMax_append (a b : List Nat) :
    listMax (a ++ b) = max (listMax a) (listMax b) := by
  induction a with
  | nil => simp [listMax]
  | cons x xs ih =>
    simp only [listMax, List.foldr_cons, List.cons_append] at *
    omega

/-! ### Fold decompositions of the `get_photos` loops -/

theorem processAttachment_downloads (oid : Nat) (folder : String) (st : AttState)
    (att : Attachment) :
    (processAttachment oid folder st att).downloads
      = st.downloads ++ [joinPath folder att.filename] := by
  simp only [processAttachment]
  split <;> rfl

theorem attFold_downloads (oid : Nat) (folder : String) (atts : List Attachment)
    (st : AttState) :
    (atts.foldl (processAttachment oid folder) st).downloads
      = st.downloads ++ atts.map (fun a => joinPath folder a.filename) := by
  induction atts generalizing st with
  | nil => simp
  | cons a as ih => simp [ih, processAttachment_downloads]

theorem processFeature_newEntries (cfg : GPConfig) (l : FeatureLayerP) (st : RunState)
    (f : Feature) :
    (processFeature cfg l st f).newEntries = st.newEntries ++ [mkRawEntry cfg f] := rfl

theorem processFeature_queries (cfg : GPConfig) (l : FeatureLayerP) (st : RunState)
    (f : Feature) :
    (processFeature cfg l st f).queries = st.queries := rfl

theorem processFeature_downloads (cfg : GPConfig) (l : FeatureLayerP) (st : RunState)
    (f : Feature) :
    (processFeature cfg l st f).downloads = st.downloads ++ featureDownloads cfg l f := by
  simp [processFeature, attFold_downloads, featureDownloads]

theorem featFold_newEntries (cfg : GPConfig) (l : FeatureLayerP) (fs : List Feature)
    (st : RunState) :
    (fs.foldl (processFeature cfg l) st).newEntries
      = st.newEntries ++ fs.map (mkRawEntry cfg) := by
  induction fs generalizing st with
  | nil => simp
  | cons f t ih => simp [ih, processFeature_newEntries]

theorem featFold_queries (cfg : GPConfig) (l : FeatureLayerP) (fs : List Feature)
    (st : RunState) :
    (fs.foldl (processFeature cfg l) st).queries = st.queries := by
  induction fs generalizing st with
  | nil => rfl
  | cons f t ih => simp [ih, processFeature_queries]

theorem featFold_downloads (cfg : GPConfig) (l : FeatureLayerP) (fs : List Feature)
    (st : RunState) :
    (fs.foldl (processFeature cfg l) st).downloads
      = st.downloads ++ listFlatMap (featureDownloads cfg l) fs := by
  induction fs generalizing st with
  | nil => simp [listFlatMap]
  | cons f t ih => simp [ih, processFeature_downloads, listFlatMap]

theorem processLayer_queries (cfg : GPConfig) (m : Nat) (st : RunState)
    (l : FeatureLayerP) :
    (processLayer cfg m st l).queries = st.queries ++ layerQueries m l := by
  by_cases hA : l.hasAttachments
  · simp [processLayer, layerQueries, hA, featFold_queries]
  · simp [processLayer, layerQueries, hA]

theorem processLayer_newEntries (cfg : GPConfig) (m : Nat) (st : RunState)
    (l : FeatureLayerP) :
    (processLayer cfg m st l).newEntries = st.newEntries ++ layerEntries cfg m l := by
  by_cases hA : l.hasAttachments
  · simp [processLayer, layerEntries, hA, featFold_newEntries]
  · simp [processLayer, layerEntries, hA]

theorem processLayer_downloads (cfg : GPConfig) (m : Nat) (st : RunState)
    (l : FeatureLayerP) :
    (processLayer cfg m st l).downloads = st.downloads ++ layerDownloads cfg m l := by
  by_cases hA : l.hasAttachments
  · simp [processLayer, layerDownloads, hA, featFold_downloads]
  · simp [processLayer, layerDownloads, hA]

theorem layerFold_queries (cfg : GPConfig) (m : Nat) (ls : List FeatureLayerP)
    (st : RunState) :
    (ls.foldl (processLayer cfg m) st).queries
      = st.queries ++ listFlatMap (layerQueries m) ls := by
  induction ls generalizing st with
  | nil => simp [listFlatMap]
  | cons l t ih => simp [ih, processLayer_queries, listFlatMap]

theorem layerFold_newEntries (cfg : GPConfig) (m : Nat) (ls : List FeatureLayerP)
    (st : RunState) :
    (ls.foldl (processLayer cfg m) st).newEntries
      = st.newEntries ++ listFlatMap (layerEntries cfg m) ls := by
  induction ls generalizing st with
  | nil => simp [listFlatMap]
  | cons l t ih => simp [ih, processLayer_newEntries, listFlatMap]

theorem layerFold_downloads (cfg : GPConfig) (m : Nat) (ls : List FeatureLayerP)
    (st : RunState) :
    (ls.foldl (processLayer cfg m) st).downloads
      = st.downloads ++ listFlatMap (layerDownloads cfg m) ls := by
  induction ls generalizing st with
  | nil => simp [listFlatMap]
  | cons l t ih => simp [ih, processLayer_downloads, listFlatMap]

theorem get_photos_queries (cfg : GPConfig) (logInput : Option (List LogEntry))
    (rel_fs : List FeatureLayerP) (files0 : List (String × Nat)) :
    (get_photos cfg logInput rel_fs files0).queries
      = listFlatMap (layerQueries (logCursor logInput)) rel_fs := by
  simp [get_photos, layerFold_queries]

theorem get_photos_newEntries (cfg : GPConfig) (logInput : Option (List LogEntry))
    (rel_fs : List FeatureLayerP) (files0 : List (String × Nat)) :
    (get_photos cfg logInput rel_fs files0).newEntries
      = listFlatMap (layerEntries cfg (logCursor logInput)) rel_fs := by
  simp [get_photos, layerFold_newEntries]

theorem get_photos_downloads (cfg : GPConfig) (logInput : Option (List LogEntry))
    (rel_fs : List FeatureLayerP) (files0 : List (String × Nat)) :
    (get_photos cfg logInput rel_fs files0).downloads
      = listFlatMap (layerDownloads cfg (logCursor logInput)) rel_fs := by
  simp [get_photos, layerFold_downloads]

theorem get_photos_finalLog (cfg : GPConfig) (logInput : Option (List LogEntry))
    (rel_fs : List FeatureLayerP) (files0 : List (String × Nat)) :
    (get_photos cfg logInput rel_fs files0).finalLog
      = logInput.getD []
        ++ (get_photos cfg logInput rel_fs files0).newEntries.map formatEntry := by
  cases logInput <;> simp [get_photos]

theorem get_photos_writes (cfg : GPConfig) (logInput : Option (List LogEntry))
    (rel_fs : List FeatureLayerP) (files0 : List (String × Nat)) :
    (get_photos cfg logInput rel_fs files0).writes
      = [(joinPath cfg.save_directory "log_photos.json",
          serializeLog ((get_photos cfg logInput rel_fs files0).finalLog))] := rfl

/-! ### Lemmas about `pyReplace`, the filesystem and the date format -/

theorem isPrefixOf_self (l : List Char) : l.isPrefixOf l = true := by
  induction l with
  | nil => rfl
  | cons a as ih => simp [List.isPrefixOf, ih]

theorem pyReplaceAux_append_pat (pat rep stem : List Char) (hp : pat ≠ [])
    (fuel : Nat) (hfuel : (stem ++ pat).length ≤ fuel)
    (hocc : ∀ i, i < stem.length → pat.isPrefixOf ((stem ++ pat).drop i) = false) :
    pyReplaceAux pat rep fuel (stem ++ pat) = stem ++ rep := by
  induction stem generalizing fuel with
  | nil =>
    obtain ⟨p, ps, rfl⟩ : ∃ p ps, pat = p :: ps := by
      cases pat with
      | nil => exact absurd rfl hp
      | cons p ps => exact ⟨p, ps, rfl⟩
    cases fuel with
    | zero => exfalso; simp at hfuel
    | succ f => simp [pyReplaceAux, isPrefixOf_self, List.drop_length]
  | cons c st ih =>
    cases fuel with
    | zero => exfalso; simp at hfuel
    | succ f =>
      have h0 := hocc 0 (by simp)
      simp only [List.drop_zero, List.cons_append] at h0
      simp only [List.cons_append, pyReplaceAux, List.append_eq, h0,
        Bool.false_eq_true, if_false]
      rw [ih f (by simp at hfuel ⊢; omega)
        (fun i hi => by
          have := hocc (i + 1) (by simp only [List.length_cons]; omega)
          simpa [List.drop_succ_cons] using this)]

theorem find?_filter_ne (t : List (String × Nat)) (p q_ : String) (h : p ≠ q_) :
    (t.filter (fun e => !(e.1 == q_))).find? (fun e => e.1 == p)
      = t.find? (fun e => e.1 == p) := by
  induction t with
  | nil => rfl
  | cons e tl ih =>
    by_cases hq : e.1 = q_
    · have h2 : (q_ == p) = false := by
        simp only [beq_eq_false_iff_ne]
        exact fun hh => h hh.symm
      have h3 : (e.1 == q_) = true := by simpa using hq
      simp [List.filter_cons, h3, List.find?_cons, hq, h2, ih]
    · have h1 : (e.1 == q_) = false := by simpa using hq
      by_cases hp : (e.1 == p) = true
      · simp [List.filter_cons, h1, List.find?_cons, hp]
      · simp only [Bool.not_eq_true] at hp
        simp [List.filter_cons, h1, List.find?_cons, hp, ih]

theorem fsLookup_fsWrite_ne (files : List (String × Nat)) (p q_ : String) (c : Nat)
    (h : p ≠ q_) : fsLookup (fsWrite files q_ c) p = fsLookup files p := by
  have hqp : (q_ == p) = false := by
    simp only [beq_eq_false_iff_ne]
    exact fun hh => h hh.symm
  simp [fsLookup, fsWrite, List.find?_cons, hqp, find?_filter_ne files p q_ h]

theorem isDigitB_digitChar (n : Nat) : isDigitB (digitChar n) = true := by
  unfold digitChar
  repeat' split
  all_goals rfl

theorem isDateFormat_fmtDMYHMS (y mo d hh mi ss : Nat) :
    isDateFormat (fmtDMYHMS y mo d hh mi ss) = true := by
  simp [fmtDMYHMS, isDateFormat, pad2L, pad4L, isDigitB_digitChar]

theorem isDateFormat_formatLogDate (ms : Nat) :
    isDateFormat (formatLogDate ms) = true := by
  simp [formatLogDate, isDateFormat_fmtDMYHMS]

/-- Faithfulness of the two-digit padding for day and month: the civil
conversion always yields a day in 1..31 and a month in 1..12, so
`pad2L` renders them exactly as `strftime('%d')`/`strftime('%m')` do. -/
theorem daysToCivil_bounds (days : Nat) :
    1 ≤ (daysToCivil days).2.2 ∧ (daysToCivil days).2.2 ≤ 31 ∧
    1 ≤ (daysToCivil days).2.1 ∧ (daysToCivil days).2.1 ≤ 12 := by
  unfold daysToCivil
  dsimp only
  split <;> omega

/-! ### Shared run-level lemma -/

theorem newEntries_gt_cursor (cfg : GPConfig) (logInput : Option (List LogEntry))
    (rel_fs : List FeatureLayerP) (files0 : List (String × Nat)) :
    (get_photos cfg logInput rel_fs files0).newEntries.all
      (fun e => decide (logCursor logInput < e.objectid)) = true := by
  rw [List.all_eq_true]
  intro e he
  rw [get_photos_newEntries, mem_listFlatMap] at he
  obtain ⟨l, hl, hel⟩ := he
  simp only [layerEntries] at hel
  by_cases hA : l.hasAttachments = true
  · rw [if_pos hA, List.mem_map] at hel
    obtain ⟨f, hf, rfl⟩ := hel
    rw [queryFeatures_mem] at hf
    simp [mkRawEntry, hf.2]
  · rw [if_neg hA] at hel
    simp at hel

/-! ### Claim theorems -/

/-- C1: for a sync log with maximum objectid `M`, a `get_photos` run
issues exactly one query per attachment-enabled layer/table, and that
query asks only for records with `objectid > M` (where clause
`objectid > M`), in ascending objectid order, projecting only the
`created_date` field; every record the queries return indeed has
objectid above `M` and each per-layer result is ascending. -/
theorem claim_C1_query_contract (cfg : GPConfig) (prev : List LogEntry)
    (rel_fs : List FeatureLayerP) (files0 : List (String × Nat)) :
    let M := logCursor (some prev)
    let r := get_photos cfg (some prev) rel_fs files0
    r.queries = listFlatMap (layerQueries M) rel_fs
    ∧ (buildQuery M).out_fields = "created_date"
    ∧ (buildQuery M).where_clause = "objectid > " ++ natToString M
    ∧ (buildQuery M).order_by_fields = "objectid ASC"
    ∧ (buildQuery M).return_geometry = false
    ∧ r.newEntries.all (fun e => decide (M < e.objectid)) = true
    ∧ rel_fs.all (fun l => ascOids (queryFeatures l M)) = true := by
  intro M r
  refine ⟨get_photos_queries cfg (some prev) rel_fs files0, rfl, rfl, rfl, rfl,
    newEntries_gt_cursor cfg (some prev) rel_fs files0, ?_⟩
  rw [List.all_eq_true]
  intro l hl
  exact ascOids_sortByOid _

/-- Config for the C2 counterexample. -/
def cfgC2 : GPConfig := ⟨"FORM", "p", "f"⟩

/-- Layer for the C2 counterexample: one record, no attachments. -/
def layerC2 : FeatureLayerP :=
  { hasAttachments := true
    features := [⟨7, 0⟩]
    attachmentsOf := fun _ => [] }

/-- C2 is false as stated: on an attachment-enabled layer containing
the single record with objectid 7 which has zero attachments,
`get_photos` still records a log tuple for that record (and downloads
nothing), refuting the claim that no entry is written for a record
that has zero attachments. -/
theorem claim_C2_counterexample :
    layerC2.attachmentsOf 7 = []
    ∧ (get_photos cfgC2 none [layerC2] []).newEntries
        = [{ objectid := 7, created_date := 0, id_form := "FORM", local_dir := "p/f/70-01-01" }]
    ∧ (get_photos cfgC2 none [layerC2] []).downloads = [] :=
  ⟨rfl, by decide, by decide⟩

/-- C2 (amended): every tuple `get_photos` adds to the sync log
corresponds to a record returned by the incremental query on an
attachment-enabled layer/table, and exactly one tuple is recorded per
such record — including records that themselves have zero attachments
(the tuple is appended before the attachment list is consulted). -/
theorem claim_C2_amended (cfg : GPConfig) (logInput : Option (List LogEntry))
    (rel_fs : List FeatureLayerP) (files0 : List (String × Nat)) :
    (get_photos cfg logInput rel_fs files0).newEntries
      = listFlatMap (layerEntries cfg (logCursor logInput)) rel_fs :=
  get_photos_newEntries cfg logInput rel_fs files0

/-- C3: when the log file is absent, the cursor is 0, every
attachment-enabled layer is queried with where clause `objectid > 0`,
and every remote record with objectid at least 1 is processed — a log
tuple is recorded for it and each of its attachments is downloaded into
its destination folder (a full resync). -/
theorem claim_C3_full_resync (cfg : GPConfig) (rel_fs : List FeatureLayerP)
    (files0 : List (String × Nat)) :
    let r := get_photos cfg none rel_fs files0
    logCursor none = 0
    ∧ r.queries = listFlatMap (layerQueries 0) rel_fs
    ∧ (buildQuery 0).where_clause = "objectid > 0"
    ∧ rel_fs.all (fun l => !l.hasAttachments || l.features.all (fun f =>
        decide (f.objectid = 0) || decide (mkRawEntry cfg f ∈ r.newEntries))) = true
    ∧ rel_fs.all (fun l => !l.hasAttachments || l.features.all (fun f =>
        decide (f.objectid = 0) || (l.attachmentsOf f.objectid).all (fun a =>
          decide (joinPath (finalFolder cfg f) a.filename ∈ r.downloads)))) = true := by
  intro r
  refine ⟨rfl, get_photos_queries cfg none rel_fs files0, by decide, ?_, ?_⟩
  · rw [List.all_eq_true]
    intro l hl
    by_cases hA : l.hasAttachments = true
    · simp only [hA, Bool.not_true, Bool.false_or]
      rw [List.all_eq_true]
      intro f hf
      by_cases h0 : f.objectid = 0
      · simp [h0]
      · have hd : decide (f.objectid = 0) = false := by simp [h0]
        rw [hd, Bool.false_or]
        have hmem : mkRawEntry cfg f ∈ (get_photos cfg none rel_fs files0).newEntries := by
          rw [get_photos_newEntries, mem_listFlatMap]
          refine ⟨l, hl, ?_⟩
          simp only [layerEntries, hA, if_true]
          exact List.mem_map_of_mem _ ((queryFeatures_mem l 0 f).2 ⟨hf, by omega⟩)
        exact decide_eq_true hmem
    · simp [hA]
  · rw [List.all_eq_true]
    intro l hl
    by_cases hA : l.hasAttachments = true
    · simp only [hA, Bool.not_true, Bool.false_or]
      rw [List.all_eq_true]
      intro f hf
      by_cases h0 : f.objectid = 0
      · simp [h0]
      · have hd : decide (f.objectid = 0) = false := by simp [h0]
        rw [hd, Bool.false_or]
        rw [List.all_eq_true]
        intro a ha
        have hmem : joinPath (finalFolder cfg f) a.filename
            ∈ (get_photos cfg none rel_fs files0).downloads := by
          rw [get_photos_downloads, mem_listFlatMap]
          refine ⟨l, hl, ?_⟩
          simp only [layerDownloads, hA, if_true]
          rw [mem_listFlatMap]
          refine ⟨f, (queryFeatures_mem l 0 f).2 ⟨hf, by omega⟩, ?_⟩
          exact List.mem_map_of_mem _ ha
        exact decide_eq_true hmem
    · simp [hA]

/-- C10: across any completed run, the maximum objectid in the log
never decreases: the previous entries are a prefix of the rewritten
log, every new entry has objectid strictly above the previous cursor,
and the maximum objectid of the final log is at least the cursor. -/
theorem claim_C10_cursor_monotone (cfg : GPConfig) (logInput : Option (List LogEntry))
    (rel_fs : List FeatureLayerP) (files0 : List (String × Nat)) :
    let r := get_photos cfg logInput rel_fs files0
    logCursor logInput ≤ listMax (r.finalLog.map (fun e => e.objectid))
    ∧ isPrefixL (logInput.getD []) r.finalLog = true
    ∧ r.newEntries.all (fun e => decide (logCursor logInput < e.objectid)) = true := by
  intro r
  have hlog := get_photos_finalLog cfg logInput rel_fs files0
  refine ⟨?_, ?_, newEntries_gt_cursor cfg logInput rel_fs files0⟩
  · rw [hlog, List.map_append, listMax_append]
    cases logInput with
    | none => simp [logCursor]
    | some prev =>
      simp only [logCursor, Option.getD]
      omega
  · rw [hlog]
    exact isPrefixL_append _ _

/-- Config for the C4 counterexample. -/
def cfgC4 : GPConfig := ⟨"FORM", "p", "f"⟩

/-- Layer for the C4 counterexample: one record whose attachment is a
PNG file. -/
def layerC4 : FeatureLayerP :=
  { hasAttachments := true
    features := [⟨9, 0⟩]
    attachmentsOf := fun oid => if oid = 9 then [⟨1, "photo.png", 5⟩] else [] }

/-- C4 is false as stated: the downloaded attachment `photo.png` keeps
its original name — the rename only handles the `.jpg` extension, so no
`-oid_9` is inserted before `.png`; instead the already-exists warning
fires. -/
theorem claim_C4_counterexample :
    (get_photos cfgC4 none [layerC4] []).downloads = ["p/f/70-01-01/photo.png"]
    ∧ (get_photos cfgC4 none [layerC4] []).files = [("p/f/70-01-01/photo.png", 5)]
    ∧ finalFilename "photo.png" 9 = "photo.png"
    ∧ (get_photos cfgC4 none [layerC4] []).warnings ≠ [] :=
  ⟨by decide, by decide, by decide, by decide⟩

/-- C4 (amended): the rename target is obtained by replacing every
occurrence of the substring `.jpg` in the downloaded path with
`-oid_{objectid}.jpg`; when the path ends in `.jpg` and contains no
other occurrence of `.jpg`, this inserts `-oid_{objectid}` immediately
before the extension; paths without a `.jpg` occurrence (any other
extension) keep their name unchanged. -/
theorem claim_C4_amended (stem : List Char) (oid : Nat)
    (hocc : ∀ i, i < stem.length →
      (".jpg".data.isPrefixOf ((stem ++ ".jpg".data).drop i)) = false) :
    finalFilename (String.mk (stem ++ ".jpg".data)) oid
      = String.mk (stem ++ ("-oid_" ++ natToString oid ++ ".jpg").data) := by
  unfold finalFilename pyReplace
  exact congrArg String.mk
    (pyReplaceAux_append_pat ".jpg".data _ stem (by decide) _ (le_refl _) hocc)

/-- C4 amended witness at the concrete download path `photo.jpg` and
objectid 12. -/
theorem claim_C4_amended_witness :
    finalFilename (String.mk ("photo".data ++ ".jpg".data)) 12
      = String.mk ("photo".data ++ ("-oid_" ++ natToString 12 ++ ".jpg").data) :=
  claim_C4_amended "photo".data 12 (by decide)

/-- C5: when the rename target of a downloaded attachment already
exists (and differs from the download path itself), the attachment
step leaves the filesystem exactly as the download left it — the file
previously at the target keeps its content, no rename happens — and
the warning message is emitted. -/
theorem claim_C5_conflict (oid : Nat) (folder : String) (st : AttState)
    (att : Attachment)
    (hne : finalFilename (joinPath folder att.filename) oid ≠ joinPath folder att.filename)
    (hex : fsExists st.files (finalFilename (joinPath folder att.filename) oid) = true) :
    (processAttachment oid folder st att).files
        = fsWrite st.files (joinPath folder att.filename) att.content
    ∧ fsLookup (processAttachment oid folder st att).files
          (finalFilename (joinPath folder att.filename) oid)
        = fsLookup st.files (finalFilename (joinPath folder att.filename) oid)
    ∧ (processAttachment oid folder st att).warnings
        = st.warnings ++ [warnMsg oid (finalFilename (joinPath folder att.filename) oid)] := by
  have hstep : fsExists (fsWrite st.files (joinPath folder att.filename) att.content)
      (finalFilename (joinPath folder att.filename) oid) = true := by
    unfold fsExists
    rw [fsLookup_fsWrite_ne _ _ _ _ hne]
    exact hex
  refine ⟨?_, ?_, ?_⟩
  · simp only [processAttachment, hstep, if_true]
  · simp only [processAttachment, hstep, if_true]
    rw [fsLookup_fsWrite_ne _ _ _ _ hne]
  · simp only [processAttachment, hstep, if_true]

/-- C5 witness: concrete conflicting rename target `d/a-oid_3.jpg`. -/
theorem claim_C5_witness :
    (processAttachment 3 "d" ⟨[("d/a-oid_3.jpg", 42)], [], []⟩ ⟨1, "a.jpg", 7⟩).files
        = fsWrite [("d/a-oid_3.jpg", 42)] (joinPath "d" "a.jpg") 7
    ∧ fsLookup (processAttachment 3 "d" ⟨[("d/a-oid_3.jpg", 42)], [], []⟩ ⟨1, "a.jpg", 7⟩).files
          (finalFilename (joinPath "d" "a.jpg") 3)
        = fsLookup [("d/a-oid_3.jpg", 42)] (finalFilename (joinPath "d" "a.jpg") 3)
    ∧ (processAttachment 3 "d" ⟨[("d/a-oid_3.jpg", 42)], [], []⟩ ⟨1, "a.jpg", 7⟩).warnings
        = [] ++ [warnMsg 3 (finalFilename (joinPath "d" "a.jpg") 3)] :=
  claim_C5_conflict 3 "d" ⟨[("d/a-oid_3.jpg", 42)], [], []⟩ ⟨1, "a.jpg", 7⟩
    (by decide) (by decide)

/-- C8: persisting the log formats every new entry's timestamp as
`DD/MM/YYYY HH:MM:SS`, concatenates the new entries after the previous
entries rewritten verbatim, and performs exactly one write of the whole
serialized log file. -/
theorem claim_C8_persist (cfg : GPConfig) (prev : List LogEntry)
    (rel_fs : List FeatureLayerP) (files0 : List (String × Nat)) :
    let r := get_photos cfg (some prev) rel_fs files0
    r.finalLog = prev ++ r.newEntries.map formatEntry
    ∧ (r.newEntries.map formatEntry).all (fun e => isDateFormat e.created_date) = true
    ∧ r.writes = [(joinPath cfg.save_directory "log_photos.json", serializeLog r.finalLog)] := by
  intro r
  refine ⟨get_photos_finalLog cfg (some prev) rel_fs files0, ?_,
    get_photos_writes cfg (some prev) rel_fs files0⟩
  rw [List.all_eq_true]
  intro e he
  rw [List.mem_map] at he
  obtain ⟨x, hx, rfl⟩ := he
  exact isDateFormat_formatLogDate x.created_date

/-- Out-of-range indexing on any collection yields the not-found error. -/
theorem pyIndex_out_of_range {α : Type} (l : List α) (k : Int)
    (hk : k < -(l.length : Int) ∨ (l.length : Int) ≤ k) :
    pyIndex l k = .error .NotFoundError := by
  have hnot : ¬(0 ≤ (if k < 0 then k + (l.length : Int) else k)
      ∧ (if k < 0 then k + (l.length : Int) else k).toNat < l.length) := by
    by_cases hk0 : k < 0
    · simp only [hk0, if_true]
      rintro ⟨h1, h2⟩
      omega
    · simp only [hk0, if_false]
      rintro ⟨h1, h2⟩
      omega
  simp only [pyIndex]
  rw [dif_neg hnot]

/-- C6: `get_main_layer` with an out-of-range `layer_position` fails
with `NotFoundError` rather than returning data, and likewise
`get_table` with an out-of-range `table_position`. -/
theorem claim_C6_out_of_range (g : GetDataModel) (i j : Int) (save : Bool)
    (fname : String)
    (hi : i < -(g.survey_by_id.layers.length : Int) ∨ (g.survey_by_id.layers.length : Int) ≤ i)
    (hj : j < -(g.survey_by_id.tables.length : Int) ∨ (g.survey_by_id.tables.length : Int) ≤ j) :
    get_main_layer g i save fname = .error .NotFoundError
    ∧ get_table g j save fname = .error .NotFoundError := by
  constructor
  · simp only [get_main_layer, pyIndex_out_of_range _ _ hi]
  · simp only [get_table, pyIndex_out_of_range _ _ hj]

/-- GetData state for the C6 witness: one layer, no tables. -/
def gC6 : GetDataModel := ⟨"F", none, "dir", ⟨[⟨["c"], []⟩], []⟩⟩

/-- C6 witness: position 5 on one layer, position 0 on zero tables. -/
theorem claim_C6_witness :
    get_main_layer gC6 5 false "x" = .error .NotFoundError
    ∧ get_table gC6 0 false "x" = .error .NotFoundError :=
  claim_C6_out_of_range gC6 5 0 false "x" (by decide) (by decide)

/-- C7: `upload_to_portal` fails with `NotFoundError` when the portal
content search returns zero matches, and when there are matches it acts
on the first search result (updating it from
`{upload_directory}/{file_name}.csv`). -/
theorem claim_C7_upload (dir name fmt : String) (x : PortalItem)
    (xs : List PortalItem) :
    upload_to_portal dir name fmt [] = .error .NotFoundError
    ∧ upload_to_portal dir name fmt (x :: xs)
        = .ok (x, joinPath dir (name ++ ".csv"), uploadMessage x name) := by
  constructor
  · rfl
  · simp only [upload_to_portal, pyIndex]
    rw [dif_pos (by constructor <;> simp)]
    rfl

/-- C9: when saving is requested and the position is in range, both
`get_main_layer` and `get_table` return the queried DataFrame together
with a single write of that same DataFrame rendered with comma decimal
separator, semicolon field separator and no index column, at
`{save_directory}/{prefix}{file_name}.csv`. -/
theorem claim_C9_save_contract (g : GetDataModel) (i j : Int) (fname : String)
    (dfL dfT : DataFrame)
    (hL : pyIndex g.survey_by_id.layers i = .ok dfL)
    (hT : pyIndex g.survey_by_id.tables j = .ok dfT) :
    get_main_layer g i true fname
        = .ok (dfL, [(savePath g fname, to_csv dfL false ',' ';')])
    ∧ get_table g j true fname
        = .ok (dfT, [(savePath g fname, to_csv dfT false ',' ';')])
    ∧ to_csv dfL false ',' ';'
        = String.intercalate "\n" (csvLine ';' dfL.columns
            :: (enumFrom 0 dfL.rows).map (fun p => csvLine ';' (p.2.map (renderCell ','))))
          ++ "\n"
    ∧ renderCell ',' (Cell.dec 3 "5") = "3,5" := by
  refine ⟨?_, ?_, rfl, by decide⟩
  · cases hp : g.prefix_str <;> simp [get_main_layer, hL, savePath, hp]
  · cases hp : g.prefix_str <;> simp [get_table, hT, savePath, hp]

/-- DataFrame for the C9 witness. -/
def dfW : DataFrame := ⟨["a", "b"], [[Cell.str "x", Cell.dec 1 "25"]]⟩

/-- GetData state for the C9 witness, with a prefix set. -/
def gC9 : GetDataModel := ⟨"F", some "pre-", "dir", ⟨[dfW], [dfW]⟩⟩

/-- C9 witness at a one-layer, one-table survey with a prefix. -/
theorem claim_C9_witness :
    get_main_layer gC9 0 true "out"
        = .ok (dfW, [(savePath gC9 "out", to_csv dfW false ',' ';')])
    ∧ get_table gC9 0 true "out"
        = .ok (dfW, [(savePath gC9 "out", to_csv dfW false ',' ';')])
    ∧ to_csv dfW false ',' ';'
        = String.intercalate "\n" (csvLine ';' dfW.columns
            :: (enumFrom 0 dfW.rows).map (fun p => csvLine ';' (p.2.map (renderCell ','))))
          ++ "\n"
    ∧ renderCell ',' (Cell.dec 3 "5") = "3,5" :=
  claim_C9_save_contract gC9 0 0 "out" dfW dfW rfl rfl
